import Mathlib

/-!
Shallow embedding of the feature-extraction / rule-evaluation / narrative
pipeline of `src/app.py` (a Bazi "four pillars" demo), together with proofs
of the specified properties.

Naming: the ten heavenly stems 甲乙丙丁戊己庚辛壬癸 are romanized as
jia yi bing ding wu ji geng xin ren gui, the twelve earthly branches
子丑寅卯辰巳午未申酉戌亥 as zi chou yin mao chen si wu wei shen you xu hai,
and the five elements 木火土金水 as mu huo tu jin shui, because CJK
characters are not valid Lean identifiers.  String values (relation labels,
polarity, band names) are kept verbatim from the source.
-/

namespace Bazi

/-- The 10 heavenly stems 甲乙丙丁戊己庚辛壬癸, in canonical order. -/
inductive Stem where
  | jia | yi | bing | ding | wu | ji | geng | xin | ren | gui
  deriving DecidableEq, Repr, Fintype

/-- The 12 earthly branches 子丑寅卯辰巳午未申酉戌亥, in canonical order. -/
inductive Branch where
  | zi | chou | yin | mao | chen | si | wu | wei | shen | you | xu | hai
  deriving DecidableEq, Repr, Fintype

/-- The 5 elements 木火土金水. -/
inductive Element where
  | mu | huo | tu | jin | shui
  deriving DecidableEq, Repr, Fintype

/-- GAN_WUXING: stem → element (src/app.py lines 39-45). -/
def GAN_WUXING : Stem → Element
  | .jia => .mu | .yi => .mu
  | .bing => .huo | .ding => .huo
  | .wu => .tu | .ji => .tu
  | .geng => .jin | .xin => .jin
  | .ren => .shui | .gui => .shui

/-- YIN_YANG: stem → polarity string 阳/阴 (src/app.py lines 46-52). -/
def YIN_YANG : Stem → String
  | .jia => "阳" | .yi => "阴"
  | .bing => "阳" | .ding => "阴"
  | .wu => "阳" | .ji => "阴"
  | .geng => "阳" | .xin => "阴"
  | .ren => "阳" | .gui => "阴"

/-- SHENG: the element generation cycle (src/app.py line 53). -/
def SHENG : Element → Element
  | .mu => .huo | .huo => .tu | .tu => .jin | .jin => .shui | .shui => .mu

/-- KE: the element dominance cycle (src/app.py line 54). -/
def KE : Element → Element
  | .mu => .tu | .tu => .shui | .shui => .huo | .huo => .jin | .jin => .mu

/-- ZHI_CANGGAN: branch → ordered list of hidden stems (src/app.py lines 56-61). -/
def ZHI_CANGGAN : Branch → List Stem
  | .zi => [.gui]
  | .chou => [.ji, .gui, .xin]
  | .yin => [.jia, .bing, .wu]
  | .mao => [.yi]
  | .chen => [.wu, .yi, .gui]
  | .si => [.bing, .wu, .geng]
  | .wu => [.ding, .ji]
  | .wei => [.ji, .ding, .yi]
  | .shen => [.geng, .ren, .wu]
  | .you => [.xin]
  | .xu => [.wu, .xin, .ding]
  | .hai => [.ren, .jia]

/-- ten_god: the relation ("ten god") classifier (src/app.py lines 64-79).
The guard chain is kept in the source's exact priority order. -/
def ten_god (day_master other_gan : Stem) : String :=
  let dm_wx := GAN_WUXING day_master
  let ot_wx := GAN_WUXING other_gan
  if ot_wx = dm_wx then
    if YIN_YANG day_master = YIN_YANG other_gan then "比肩" else "劫财"
  else if SHENG dm_wx = ot_wx then
    if YIN_YANG day_master = YIN_YANG other_gan then "食神" else "伤官"
  else if KE dm_wx = ot_wx then
    if YIN_YANG day_master = YIN_YANG other_gan then "偏财" else "正财"
  else if KE ot_wx = dm_wx then
    if YIN_YANG day_master = YIN_YANG other_gan then "七杀" else "正官"
  else if SHENG ot_wx = dm_wx then
    if YIN_YANG day_master = YIN_YANG other_gan then "偏印" else "正印"
  else "未知"

/-- The five relation-family guard conditions of `ten_god`, in source order,
as booleans: same element; reference generates candidate; reference dominates
candidate; candidate dominates reference; candidate generates reference. -/
def relation_checks (day_master other_gan : Stem) : List Bool :=
  [decide (GAN_WUXING other_gan = GAN_WUXING day_master),
   decide (SHENG (GAN_WUXING day_master) = GAN_WUXING other_gan),
   decide (KE (GAN_WUXING day_master) = GAN_WUXING other_gan),
   decide (KE (GAN_WUXING other_gan) = GAN_WUXING day_master),
   decide (SHENG (GAN_WUXING other_gan) = GAN_WUXING day_master)]

/-- Pillars (src/app.py lines 14-20): four (stem, branch) pillars plus the
day-master reference stem.  `get_pillars` always sets `day_master` to the
day pillar's stem; the field is kept separate as in the source dataclass. -/
structure Pillars where
  year_gz : Stem × Branch
  month_gz : Stem × Branch
  day_gz : Stem × Branch
  hour_gz : Stem × Branch
  day_master : Stem
  deriving DecidableEq, Repr

/-- Feature bundle returned by `extract_features` (src/app.py lines 101-105). -/
structure Features where
  wuxing_counts : Element → Nat
  ten_gods_gan : List (String × String)
  canggan_ten_gods : List (Branch × Stem × String)

/-- Increment one key of the element-count mapping (`wuxing_counts[e] += 1`). -/
def bump (m : Element → Nat) (e : Element) : Element → Nat :=
  fun x => if x = e then m x + 1 else m x

/-- The four visible stems of the pillars, in year/month/day/hour order. -/
def gans_of (p : Pillars) : List Stem :=
  [p.year_gz.1, p.month_gz.1, p.day_gz.1, p.hour_gz.1]

/-- The four branches of the pillars, in year/month/day/hour order. -/
def zhis_of (p : Pillars) : List Branch :=
  [p.year_gz.2, p.month_gz.2, p.day_gz.2, p.hour_gz.2]

/-- Per-position value of the visible-stem relation mapping
(src/app.py line 99): 日主 when the stem is the reference stem, else
`ten_god(reference, stem)`. -/
def visible_relation (p : Pillars) (g : Stem) : String :=
  if g = p.day_master then "日主" else ten_god p.day_master g

/-- extract_features (src/app.py lines 82-105): element tally over visible and
hidden stems, per-position visible-stem relations, and the ordered
(branch, hidden stem, relation) triple list. -/
def extract_features (p : Pillars) : Features :=
  let gans := gans_of p
  let zhis := zhis_of p
  let counts_visible := gans.foldl (fun m g => bump m (GAN_WUXING g)) (fun _ => 0)
  let wuxing_counts := zhis.foldl
    (fun m z => (ZHI_CANGGAN z).foldl (fun m' cg => bump m' (GAN_WUXING cg)) m)
    counts_visible
  let canggan_ten_gods := zhis.flatMap
    (fun z => (ZHI_CANGGAN z).map (fun cg => (z, cg, ten_god p.day_master cg)))
  let labels := ["年干", "月干", "日干", "时干"]
  let ten_gods_gan := (labels.zip gans).map
    (fun lg => (lg.1, visible_relation p lg.2))
  { wuxing_counts := wuxing_counts,
    ten_gods_gan := ten_gods_gan,
    canggan_ten_gods := canggan_ten_gods }

/-- The total number of hidden stems across the four branches. -/
def total_hidden (p : Pillars) : Nat :=
  ((zhis_of p).map (fun z => (ZHI_CANGGAN z).length)).sum

/-- band for element counts: low / medium / high (src/app.py lines 111-117). -/
def band_wuxing (count : Nat) : String :=
  if count ≤ 2 then "low" else if count ≤ 4 then "medium" else "high"

/-- band_0_1_2_3plus: none / low / medium / high (src/app.py lines 120-128). -/
def band_0_1_2_3plus (count : Nat) : String :=
  if count = 0 then "none" else if count = 1 then "low"
  else if count = 2 then "medium" else "high"

/-- band_0_1_2plus: none / low / high (src/app.py lines 131-137). -/
def band_0_1_2plus (count : Nat) : String :=
  if count = 0 then "none" else if count = 1 then "low" else "high"

/-- Ordinal rank of a band label, for stating monotonicity. -/
def band_rank (s : String) : Nat :=
  if s = "none" then 0 else if s = "low" then 1 else if s = "medium" then 2 else 3

/-- One step of a Python dict-based tally (`d[k] = d.get(k, 0) + 1`): an
existing key is updated in place, a new key is appended, so the association
list keeps dict insertion order. -/
def counter_add (acc : List (String × Nat)) (k : String) : List (String × Nat) :=
  match acc with
  | [] => [(k, 1)]
  | (k', c) :: rest => if k' = k then (k', c + 1) :: rest else (k', c) :: counter_add rest k

/-- The Python dict tally of a list of labels, in insertion order. -/
def dict_counter (l : List String) : List (String × Nat) :=
  l.foldl counter_add []

/-- Lookup in a tally with default 0 (`d.get(k, 0)` / `Counter[k]`). -/
def counter_get (acc : List (String × Nat)) (k : String) : Nat :=
  match acc with
  | [] => 0
  | (k', c) :: rest => if k' = k then c else counter_get rest k

/-- Insert one item into a descending-by-count list, after every element of
count ≥ its own.  Together with `sort_desc` this is the unique stable
descending sort, i.e. Python's `sorted(items, key=count, reverse=True)`. -/
def insert_desc (x : String × Nat) : List (String × Nat) → List (String × Nat)
  | [] => [x]
  | y :: ys => if y.2 ≤ x.2 then x :: y :: ys else y :: insert_desc x ys

/-- Stable insertion sort by count, descending (src/app.py line 184:
`sorted(tg_cg_counter.items(), key=lambda x: x[1], reverse=True)`). -/
def sort_desc : List (String × Nat) → List (String × Nat)
  | [] => []
  | x :: xs => insert_desc x (sort_desc xs)

/-- The keys of a list of labels in first-occurrence order: exactly the key
order a Python dict tally ends up with. -/
def first_occurrences (l : List String) : List String :=
  l.foldl (fun acc k => if k ∈ acc then acc else acc ++ [k]) []

/-- Evidence payload of a finding, one shape per rule family
(src/app.py lines 163-195). -/
inductive Evidence where
  | wuxing (element : Element) (count : Nat) (band : String)
  | ten_god_gans (table : List (String × Nat × String))
  | canggan_top5 (top : List (String × Nat × String))
  deriving DecidableEq, Repr

/-- Finding (rule hit): id, title, message, evidence (src/app.py lines 163-195). -/
structure Finding where
  rule_id : String
  title : String
  message : String
  evidence : Evidence
  deriving DecidableEq, Repr

/-- Chinese name of an element, used in rule ids and titles. -/
def elem_name : Element → String
  | .mu => "木" | .huo => "火" | .tu => "土" | .jin => "金" | .shui => "水"

/-- The element alphabet in its canonical order (src/app.py lines 86 and 160). -/
def wuxing_order : List Element := [.mu, .huo, .tu, .jin, .shui]

/-- all_tg: the 10 relation labels in declaration order (src/app.py line 171). -/
def all_tg : List String :=
  ["比肩", "劫财", "食神", "伤官", "偏财", "正财", "七杀", "正官", "偏印", "正印"]

/-- Visible-stem relation occurrences, with the 日主 sentinel skipped
(src/app.py lines 148-152). -/
def visible_tg_occurrences (f : Features) : List String :=
  (f.ten_gods_gan.map (fun x => x.2)).filter (fun v => decide (v ≠ "日主"))

/-- tg_gan_counter: dict tally of visible-stem relations (src/app.py lines 148-152). -/
def tg_gan_counter (f : Features) : List (String × Nat) :=
  dict_counter (visible_tg_occurrences f)

/-- Hidden-stem relation occurrences, in triple-list order. -/
def canggan_tg_occurrences (f : Features) : List String :=
  f.canggan_ten_gods.map (fun x => x.2.2)

/-- tg_cg_counter: dict tally of hidden-stem relations (src/app.py lines 155-157). -/
def tg_cg_counter (f : Features) : List (String × Nat) :=
  dict_counter (canggan_tg_occurrences f)

/-- band_table of the TEN-GOD-GANS finding (src/app.py lines 172-175). -/
def band_table (f : Features) : List (String × Nat × String) :=
  all_tg.map (fun tg =>
    (tg, counter_get (tg_gan_counter f) tg,
     band_0_1_2_3plus (counter_get (tg_gan_counter f) tg)))

/-- sorted_items of the CANGGAN-TOP5 rule (src/app.py line 184). -/
def sorted_items (f : Features) : List (String × Nat) :=
  sort_desc (tg_cg_counter f)

/-- top_items: the first five sorted items (src/app.py line 185). -/
def top_items (f : Features) : List (String × Nat) :=
  (sorted_items f).take 5

/-- The `out` list of the CANGGAN-TOP5 finding (src/app.py lines 186-188). -/
def canggan_top (f : Features) : List (String × Nat × String) :=
  (top_items f).map (fun tc => (tc.1, tc.2, band_0_1_2plus tc.2))

/-- eval_rules (src/app.py lines 140-197): five always-on element-band
findings, the visible-stem relation table, and the hidden-stem top-5. -/
def eval_rules (f : Features) : List Finding :=
  (wuxing_order.map (fun e =>
    { rule_id := "WUXING-" ++ elem_name e,
      title := elem_name e ++ "元素水平",
      message := band_wuxing (f.wuxing_counts e),
      evidence := .wuxing e (f.wuxing_counts e) (band_wuxing (f.wuxing_counts e)) }))
  ++ [{ rule_id := "TEN-GOD-GANS", title := "天干十神强度（区间）",
        message := "none/low/medium/high", evidence := .ten_god_gans (band_table f) }]
  ++ [{ rule_id := "CANGGAN-TOP5", title := "藏干十神强度（Top5）",
        message := "none/low/high", evidence := .canggan_top5 (canggan_top f) }]

/-- All relation occurrences counted by `_compute_risk_band`: visible-stem
relations (日主 skipped) followed by hidden-stem relations
(src/app.py lines 233-238, a `collections.Counter`). -/
def risk_occurrences (f : Features) : List String :=
  visible_tg_occurrences f ++ canggan_tg_occurrences f

/-- stabilizing: total count of the four peer/resource labels
(src/app.py lines 241 and 245). -/
def stabilizing_score (f : Features) : Nat :=
  (risk_occurrences f).count "正印" + (risk_occurrences f).count "偏印"
  + (risk_occurrences f).count "比肩" + (risk_occurrences f).count "劫财"

/-- tension: total count of the remaining six labels
(src/app.py lines 243 and 246). -/
def tension_score (f : Features) : Nat :=
  (risk_occurrences f).count "七杀" + (risk_occurrences f).count "正官"
  + (risk_occurrences f).count "食神" + (risk_occurrences f).count "伤官"
  + (risk_occurrences f).count "偏财" + (risk_occurrences f).count "正财"

/-- Evidence dict returned by `_compute_risk_band` (src/app.py lines 256-260). -/
structure RiskEvidence where
  stabilizing : Nat
  tension : Nat
  diff : Int
  deriving DecidableEq, Repr

/-- compute_risk_band (src/app.py lines 223-261): classify the
(stabilizing, tension) pair into low / medium / high.  The code after its
`return` statement (source lines 264-330) is unreachable and not modelled. -/
def compute_risk_band (f : Features) : String × RiskEvidence :=
  let stabilizing := stabilizing_score f
  let tension := tension_score f
  let band :=
    if tension ≤ stabilizing then "low"
    else if tension ≤ stabilizing + 2 then "medium"
    else "high"
  (band, ⟨stabilizing, tension, (tension : Int) - (stabilizing : Int)⟩)

/-- generate_interpretation_text (src/app.py lines 203-221): the function
builds `band_map` from the WUXING- findings and defines a local helper, and
then its body ends — the paragraph assembly at source lines 264-330 is
unreachably indented inside `_compute_risk_band` after that function's
`return`, so the narrative generator itself falls off the end and returns
Python `None`, modelled as `none`. -/
def generate_interpretation_text (pillars : Pillars) (features : Features)
    (rule_hits : List Finding) : Option String :=
  let band_map : List (String × String) := rule_hits.foldl
    (fun m h =>
      if h.rule_id.startsWith "WUXING-" then
        match h.evidence with
        | .wuxing e _ band => m ++ [(elem_name e, band)]
        | _ => m
      else m) []
  match band_map with
  | _ => none

/-- Helper: complete case description of `band_wuxing`. -/
lemma band_wuxing_cases (m : Nat) :
    (m ≤ 2 ∧ band_wuxing m = "low") ∨
    ((3 ≤ m ∧ m ≤ 4) ∧ band_wuxing m = "medium") ∨
    (5 ≤ m ∧ band_wuxing m = "high") := by
  unfold band_wuxing
  split_ifs with h1 h2
  · exact Or.inl ⟨h1, rfl⟩
  · exact Or.inr (Or.inl ⟨⟨by omega, h2⟩, rfl⟩)
  · exact Or.inr (Or.inr ⟨by omega, rfl⟩)

/-- Helper: complete case description of `band_0_1_2_3plus`. -/
lemma band_4way_cases (m : Nat) :
    (m = 0 ∧ band_0_1_2_3plus m = "none") ∨
    (m = 1 ∧ band_0_1_2_3plus m = "low") ∨
    (m = 2 ∧ band_0_1_2_3plus m = "medium") ∨
    (3 ≤ m ∧ band_0_1_2_3plus m = "high") := by
  unfold band_0_1_2_3plus
  split_ifs with h1 h2 h3
  · exact Or.inl ⟨h1, rfl⟩
  · exact Or.inr (Or.inl ⟨h2, rfl⟩)
  · exact Or.inr (Or.inr (Or.inl ⟨h3, rfl⟩))
  · exact Or.inr (Or.inr (Or.inr ⟨by omega, rfl⟩))

/-- Helper: complete case description of `band_0_1_2plus`. -/
lemma band_3way_cases (m : Nat) :
    (m = 0 ∧ band_0_1_2plus m = "none") ∨
    (m = 1 ∧ band_0_1_2plus m = "low") ∨
    (2 ≤ m ∧ band_0_1_2plus m = "high") := by
  unfold band_0_1_2plus
  split_ifs with h1 h2
  · exact Or.inl ⟨h1, rfl⟩
  · exact Or.inr (Or.inl ⟨h2, rfl⟩)
  · exact Or.inr (Or.inr ⟨by omega, rfl⟩)

/-- Example pillars 甲子 丙寅 戊午 庚申 with day master 戊 (the spec's §8
scenario), used as a concrete failing input. -/
def scenario_pillars : Pillars :=
  ⟨(.jia, .zi), (.bing, .yin), (.wu, .wu), (.geng, .shen), .wu⟩

/-- Synthetic feature bundle with stabilizing = 3, tension = 3. -/
def risk_low_example : Features :=
  { wuxing_counts := fun _ => 0,
    ten_gods_gan :=
      [("年干", "日主"), ("月干", "日主"), ("日干", "日主"), ("时干", "日主")],
    canggan_ten_gods :=
      [(.zi, .gui, "比肩"), (.zi, .gui, "比肩"), (.zi, .gui, "比肩"),
       (.zi, .gui, "七杀"), (.zi, .gui, "七杀"), (.zi, .gui, "七杀")] }

/-- Synthetic feature bundle with stabilizing = 3, tension = 5. -/
def risk_medium_example : Features :=
  { wuxing_counts := fun _ => 0,
    ten_gods_gan :=
      [("年干", "正财"), ("月干", "正官"), ("日干", "日主"), ("时干", "比肩")],
    canggan_ten_gods :=
      [(.zi, .gui, "比肩"), (.zi, .gui, "劫财"),
       (.zi, .gui, "七杀"), (.zi, .gui, "食神"), (.zi, .gui, "伤官")] }

/-- Synthetic feature bundle with stabilizing = 3, tension = 6. -/
def risk_high_example : Features :=
  { wuxing_counts := fun _ => 0,
    ten_gods_gan :=
      [("年干", "正财"), ("月干", "正官"), ("日干", "日主"), ("时干", "比肩")],
    canggan_ten_gods :=
      [(.zi, .gui, "比肩"), (.zi, .gui, "劫财"),
       (.zi, .gui, "七杀"), (.zi, .gui, "食神"), (.zi, .gui, "伤官"),
       (.zi, .gui, "偏财")] }

/-- C1 (code bug): the narrative generator returns Python `None` on every
input — its body ends after building `band_map` (src/app.py line 220), and
the five-paragraph assembly is unreachable dead code indented inside
`_compute_risk_band` after that function's `return` — so it never produces
the claimed five-paragraph text. -/
theorem c1_narrative_returns_none :
    generate_interpretation_text scenario_pillars (extract_features scenario_pillars)
      (eval_rules (extract_features scenario_pillars)) = none
    ∧ ∀ (p : Pillars) (f : Features) (hits : List Finding),
        generate_interpretation_text p f hits = none :=
  ⟨rfl, fun _ _ _ => rfl⟩

/-- C6: the risk band sums relation frequencies across visible (minus 日主)
and hidden occurrences into the stabilizing set {比肩, 劫财, 正印, 偏印} and
the tension set of the six remaining labels, and classifies low iff
tension ≤ stabilizing, medium iff stabilizing < tension ≤ stabilizing + 2,
high otherwise; at (3,3) it gives low, at (3,5) medium, at (3,6) high. -/
theorem c6_risk_band_classification (f : Features) :
    ((compute_risk_band f).1 = "low" ↔ tension_score f ≤ stabilizing_score f)
    ∧ ((compute_risk_band f).1 = "medium" ↔
        stabilizing_score f < tension_score f
          ∧ tension_score f ≤ stabilizing_score f + 2)
    ∧ ((compute_risk_band f).1 = "high" ↔
        stabilizing_score f + 2 < tension_score f)
    ∧ (compute_risk_band f).2.stabilizing = stabilizing_score f
    ∧ (compute_risk_band f).2.tension = tension_score f
    ∧ (stabilizing_score risk_low_example = 3 ∧ tension_score risk_low_example = 3
        ∧ (compute_risk_band risk_low_example).1 = "low")
    ∧ (stabilizing_score risk_medium_example = 3 ∧ tension_score risk_medium_example = 5
        ∧ (compute_risk_band risk_medium_example).1 = "medium")
    ∧ (stabilizing_score risk_high_example = 3 ∧ tension_score risk_high_example = 6
        ∧ (compute_risk_band risk_high_example).1 = "high") := by
  refine ⟨?_, ?_, ?_, rfl, rfl, by decide, by decide, by decide⟩
  all_goals
    simp only [compute_risk_band]
    split_ifs with h1 h2 <;>
      constructor <;> intro hh <;>
        first
          | omega
          | rfl
          | exact absurd hh (by decide)

/-- C2: for every pair of stems both drawn from the 10-stem alphabet, exactly
one of the five relation-family guard conditions of `ten_god` fires, and
`ten_god` never returns the fallback 未知 ("unknown"); the fallback branch is
unreachable. -/
theorem c2_ten_god_exactly_one_check_and_no_unknown :
    ∀ a b : Stem, (relation_checks a b).count true = 1 ∧ ten_god a b ≠ "未知" := by
  decide

/-- C8: the three band classifiers return exactly the spec thresholds
(band_wuxing: 0-2 low, 3-4 medium, 5+ high; band_4way: 0 none, 1 low,
2 medium, 3+ high; band_3way: 0 none, 1 low, 2+ high), and each is a
monotonic step function of its argument. -/
theorem c8_band_thresholds_and_monotone (n k : Nat) :
    ((band_wuxing n = "low" ↔ n ≤ 2) ∧
     (band_wuxing n = "medium" ↔ 3 ≤ n ∧ n ≤ 4) ∧
     (band_wuxing n = "high" ↔ 5 ≤ n)) ∧
    ((band_0_1_2_3plus n = "none" ↔ n = 0) ∧
     (band_0_1_2_3plus n = "low" ↔ n = 1) ∧
     (band_0_1_2_3plus n = "medium" ↔ n = 2) ∧
     (band_0_1_2_3plus n = "high" ↔ 3 ≤ n)) ∧
    ((band_0_1_2plus n = "none" ↔ n = 0) ∧
     (band_0_1_2plus n = "low" ↔ n = 1) ∧
     (band_0_1_2plus n = "high" ↔ 2 ≤ n)) ∧
    band_rank (band_wuxing n) ≤ band_rank (band_wuxing (n + k)) ∧
    band_rank (band_0_1_2_3plus n) ≤ band_rank (band_0_1_2_3plus (n + k)) ∧
    band_rank (band_0_1_2plus n) ≤ band_rank (band_0_1_2plus (n + k)) := by
  refine ⟨⟨?_, ?_, ?_⟩, ⟨?_, ?_, ?_, ?_⟩, ⟨?_, ?_, ?_⟩, ?_, ?_, ?_⟩
  case refine_11 =>
    rcases band_wuxing_cases n with ⟨h, e⟩ | ⟨h, e⟩ | ⟨h, e⟩ <;>
      rcases band_wuxing_cases (n + k) with ⟨h', e'⟩ | ⟨h', e'⟩ | ⟨h', e'⟩ <;>
      rw [e, e'] <;> first | decide | omega
  case refine_12 =>
    rcases band_4way_cases n with ⟨h, e⟩ | ⟨h, e⟩ | ⟨h, e⟩ | ⟨h, e⟩ <;>
      rcases band_4way_cases (n + k) with ⟨h', e'⟩ | ⟨h', e'⟩ | ⟨h', e'⟩ | ⟨h', e'⟩ <;>
      rw [e, e'] <;> first | decide | omega
  case refine_13 =>
    rcases band_3way_cases n with ⟨h, e⟩ | ⟨h, e⟩ | ⟨h, e⟩ <;>
      rcases band_3way_cases (n + k) with ⟨h', e'⟩ | ⟨h', e'⟩ | ⟨h', e'⟩ <;>
      rw [e, e'] <;> first | decide | omega
  case refine_1 | refine_2 | refine_3 =>
    rcases band_wuxing_cases n with ⟨h, e⟩ | ⟨h, e⟩ | ⟨h, e⟩ <;> rw [e] <;>
      (constructor <;> intro hh <;> first | omega | rfl | exact absurd hh (by decide))
  case refine_4 | refine_5 | refine_6 | refine_7 =>
    rcases band_4way_cases n with ⟨h, e⟩ | ⟨h, e⟩ | ⟨h, e⟩ | ⟨h, e⟩ <;> rw [e] <;>
      (constructor <;> intro hh <;> first | omega | rfl | exact absurd hh (by decide))
  case refine_8 | refine_9 | refine_10 =>
    rcases band_3way_cases n with ⟨h, e⟩ | ⟨h, e⟩ | ⟨h, e⟩ <;> rw [e] <;>
      (constructor <;> intro hh <;> first | omega | rfl | exact absurd hh (by decide))

/-- Helper: every branch hides between 1 and 3 stems. -/
lemma zhi_canggan_length_bounds (z : Branch) :
    1 ≤ (ZHI_CANGGAN z).length ∧ (ZHI_CANGGAN z).length ≤ 3 := by
  cases z <;> decide

/-- Pillars whose four branches are all 丑 (3 hidden stems each). -/
def all_chou_pillars : Pillars :=
  ⟨(.jia, .chou), (.jia, .chou), (.jia, .chou), (.jia, .chou), .jia⟩

/-- C3 counterexample: with all four branches 丑 the four branches hide
3 + 3 + 3 + 3 = 12 stems, so the triple list has length 12 > 8; the claimed
upper bound 8 is false. -/
theorem c3_counterexample_twelve_hidden_stems :
    (extract_features all_chou_pillars).canggan_ten_gods.length = 12
    ∧ ¬((extract_features all_chou_pillars).canggan_ten_gods.length ≤ 8) := by
  decide

/-- C3 (amended): for every set of four pillars the total number of hidden
stems across the four branches — the length of the (branch, hidden stem,
relation) triple list — is at least 4 and at most 12 (each branch hides
1 to 3 stems), not at most 8 as claimed. -/
theorem c3_amended_canggan_length_bounds (p : Pillars) :
    (extract_features p).canggan_ten_gods.length = total_hidden p
    ∧ 4 ≤ total_hidden p ∧ total_hidden p ≤ 12 := by
  have h1 := zhi_canggan_length_bounds p.year_gz.2
  have h2 := zhi_canggan_length_bounds p.month_gz.2
  have h3 := zhi_canggan_length_bounds p.day_gz.2
  have h4 := zhi_canggan_length_bounds p.hour_gz.2
  refine ⟨?_, ?_, ?_⟩
  · simp [extract_features, zhis_of, total_hidden, List.flatMap]
  · simp only [total_hidden, zhis_of, List.map_cons, List.map_nil, List.sum_cons,
      List.sum_nil]
    omega
  · simp only [total_hidden, zhis_of, List.map_cons, List.map_nil, List.sum_cons,
      List.sum_nil]
    omega

/-- Sum of the element-count mapping over the five element keys. -/
def wuxing_total (m : Element → Nat) : Nat :=
  m .mu + m .huo + m .tu + m .jin + m .shui

/-- Helper: bumping one element key raises the total by exactly 1. -/
lemma wuxing_total_bump (m : Element → Nat) (e : Element) :
    wuxing_total (bump m e) = wuxing_total m + 1 := by
  cases e <;> simp [wuxing_total, bump] <;> omega

/-- Helper: a fold of bumps raises the total by the list length. -/
lemma fold_bump_total {α : Type} (key : α → Element) :
    ∀ (l : List α) (m : Element → Nat),
      wuxing_total (l.foldl (fun m a => bump m (key a)) m) = wuxing_total m + l.length
  | [], m => by simp
  | a :: l, m => by
    simp only [List.foldl_cons, List.length_cons]
    rw [fold_bump_total key l (bump m (key a)), wuxing_total_bump]
    omega

/-- Helper: the nested hidden-stem fold raises the total by the number of
hidden stems. -/
lemma fold_zhi_total :
    ∀ (l : List Branch) (m : Element → Nat),
      wuxing_total (l.foldl
        (fun m z => (ZHI_CANGGAN z).foldl (fun m' cg => bump m' (GAN_WUXING cg)) m) m)
        = wuxing_total m + (l.map (fun z => (ZHI_CANGGAN z).length)).sum
  | [], m => by simp
  | z :: l, m => by
    simp only [List.foldl_cons, List.map_cons, List.sum_cons]
    rw [fold_zhi_total l _, fold_bump_total GAN_WUXING]
    omega

/-- C7: the element-count mapping of `extract_features` is total on the five
element keys (each value a Nat, hence ≥ 0 even when 0) and its five values
sum to exactly 4 (one per visible stem) plus the total number of hidden
stems across the four branches. -/
theorem c7_wuxing_counts_sum (p : Pillars) :
    wuxing_total ((extract_features p).wuxing_counts) = 4 + total_hidden p
    ∧ ∀ e : Element, 0 ≤ (extract_features p).wuxing_counts e := by
  refine ⟨?_, fun e => Nat.zero_le _⟩
  simp only [extract_features]
  rw [fold_zhi_total, fold_bump_total GAN_WUXING]
  simp [wuxing_total, gans_of, total_hidden]

/-- Helper: `ten_god` never returns the 日主 sentinel. -/
lemma ten_god_ne_selfLabel : ∀ a b : Stem, ten_god a b ≠ "日主" := by decide

/-- C5: in the per-position relation mapping, a position's value is the 日主
sentinel exactly when that position's stem equals the reference stem; every
other position carries `ten_god(reference, stem)`; and whenever the reference
stem is the day pillar's stem (as `get_pillars` always arranges), the day
position is 日主. -/
theorem c5_self_sentinel_positions (p : Pillars) :
    (extract_features p).ten_gods_gan
      = (["年干", "月干", "日干", "时干"].zip (gans_of p)).map
          (fun lg => (lg.1, visible_relation p lg.2))
    ∧ (∀ g : Stem, (visible_relation p g = "日主" ↔ g = p.day_master)
        ∧ (g ≠ p.day_master → visible_relation p g = ten_god p.day_master g))
    ∧ (p.day_master = p.day_gz.1 → visible_relation p p.day_gz.1 = "日主") := by
  refine ⟨rfl, fun g => ⟨?_, ?_⟩, ?_⟩
  · unfold visible_relation
    split_ifs with h <;> simp [h, ten_god_ne_selfLabel p.day_master g]
  · intro h
    unfold visible_relation
    rw [if_neg h]
  · intro h
    unfold visible_relation
    rw [if_pos h.symm]

/-- Helper: one `counter_add` step changes exactly the added key's count. -/
lemma counter_get_counter_add (acc : List (String × Nat)) (k' k : String) :
    counter_get (counter_add acc k') k
      = counter_get acc k + if k' = k then 1 else 0 := by
  induction acc with
  | nil => simp [counter_add, counter_get]
  | cons hd tl ih =>
    obtain ⟨k₀, c₀⟩ := hd
    simp only [counter_add]
    by_cases h : k₀ = k' <;> by_cases h2 : k₀ = k <;> by_cases h3 : k' = k <;>
      simp_all [counter_get]

/-- Helper: the dict tally agrees with plain occurrence counting. -/
lemma counter_get_dict_counter (l : List String) (k : String) :
    counter_get (dict_counter l) k = l.count k := by
  suffices h : ∀ acc, counter_get (l.foldl counter_add acc) k
      = counter_get acc k + l.count k by
    simpa [dict_counter, counter_get] using h []
  induction l with
  | nil => intro acc; simp
  | cons a l ih =>
    intro acc
    simp only [List.foldl_cons]
    rw [ih (counter_add acc a), counter_get_counter_add]
    by_cases h : a = k <;> simp [h, List.count_cons] <;> omega

/-- Helper: `band_0_1_2_3plus` only ever returns the four band labels. -/
lemma band_4way_mem (n : Nat) :
    band_0_1_2_3plus n ∈ (["none", "low", "medium", "high"] : List String) := by
  unfold band_0_1_2_3plus
  split_ifs <;> simp

/-- C9: the TEN-GOD-GANS finding is always among the rule hits and its table
has exactly 10 entries, one per relation label in declaration order, each
carrying that label's frequency among the visible-stem relations (with the
日主 sentinel excluded from the tally) and its `band_4way` band, which lies
in {none, low, medium, high}. -/
theorem c9_ten_god_gans_table (f : Features) :
    ({ rule_id := "TEN-GOD-GANS", title := "天干十神强度（区间）",
       message := "none/low/medium/high",
       evidence := .ten_god_gans (band_table f) } : Finding) ∈ eval_rules f
    ∧ (band_table f).length = 10
    ∧ (band_table f).map (fun e => e.1) = all_tg
    ∧ ∀ e ∈ band_table f,
        e.2.1 = (visible_tg_occurrences f).count e.1
        ∧ e.2.2 = band_0_1_2_3plus e.2.1
        ∧ e.2.2 ∈ (["none", "low", "medium", "high"] : List String) := by
  refine ⟨?_, rfl, rfl, ?_⟩
  · simp [eval_rules]
  · intro e he
    simp only [band_table, List.mem_map] at he
    obtain ⟨tg, htg, rfl⟩ := he
    exact ⟨counter_get_dict_counter _ _, rfl, band_4way_mem _⟩

/-- Helper: membership in an insertion. -/
lemma mem_insert_desc {x a : String × Nat} :
    ∀ {l}, a ∈ insert_desc x l ↔ a = x ∨ a ∈ l := by
  intro l
  induction l with
  | nil => simp [insert_desc]
  | cons y ys ih =>
    simp only [insert_desc]
    split_ifs <;> simp_all <;> tauto

/-- Helper: a list is a sublist of any insertion into it. -/
lemma sublist_insert_desc (x : String × Nat) : ∀ l, List.Sublist l (insert_desc x l)
  | [] => List.nil_sublist _
  | y :: ys => by
    simp only [insert_desc]
    split_ifs
    · exact List.sublist_cons_self _ _
    · exact List.Sublist.cons₂ y (sublist_insert_desc x ys)

/-- Helper: insertion preserves descending order of counts. -/
lemma pairwise_ge_insert_desc {x : String × Nat} :
    ∀ {l}, List.Pairwise (fun a b : String × Nat => b.2 ≤ a.2) l →
      List.Pairwise (fun a b : String × Nat => b.2 ≤ a.2) (insert_desc x l) := by
  intro l
  induction l with
  | nil => intro _; simp [insert_desc]
  | cons y ys ih =>
    intro hp
    rcases List.pairwise_cons.mp hp with ⟨hy, hys⟩
    simp only [insert_desc]
    split_ifs with h
    · refine List.pairwise_cons.mpr ⟨?_, hp⟩
      intro b hb
      rcases List.mem_cons.mp hb with rfl | hb'
      · exact h
      · exact le_trans (hy b hb') h
    · refine List.pairwise_cons.mpr ⟨?_, ih hys⟩
      intro b hb
      rcases mem_insert_desc.mp hb with rfl | hb'
      · omega
      · exact hy b hb'

/-- Helper: the stable sort output is descending in counts. -/
lemma pairwise_ge_sort_desc :
    ∀ l, List.Pairwise (fun a b : String × Nat => b.2 ≤ a.2) (sort_desc l)
  | [] => List.Pairwise.nil
  | x :: xs => pairwise_ge_insert_desc (pairwise_ge_sort_desc xs)

/-- Helper: sorting preserves membership. -/
lemma mem_sort_desc {a : String × Nat} : ∀ {l}, a ∈ sort_desc l ↔ a ∈ l := by
  intro l
  induction l with
  | nil => simp [sort_desc]
  | cons x xs ih => simp [sort_desc, mem_insert_desc, ih]

/-- Helper: insertion adds one to the length. -/
lemma length_insert_desc (x : String × Nat) :
    ∀ l, (insert_desc x l).length = l.length + 1
  | [] => rfl
  | y :: ys => by
    simp only [insert_desc]
    split_ifs <;> simp [length_insert_desc x ys]

/-- Helper: sorting preserves the length. -/
lemma length_sort_desc : ∀ l : List (String × Nat), (sort_desc l).length = l.length
  | [] => rfl
  | x :: xs => by simp [sort_desc, length_insert_desc, length_sort_desc xs]

/-- Helper: an inserted item lands after every element of count ≥ its own,
hence before no element of count ≤ its own that was already present. -/
lemma insert_desc_pair {x b : String × Nat} :
    ∀ {l}, b ∈ l → b.2 ≤ x.2 → List.Sublist [x, b] (insert_desc x l) := by
  intro l
  induction l with
  | nil => intro h; cases h
  | cons y ys ih =>
    intro hb hle
    simp only [insert_desc]
    split_ifs with h
    · exact List.Sublist.cons₂ x (List.singleton_sublist.mpr hb)
    · rcases List.mem_cons.mp hb with rfl | hb'
      · exact absurd hle h
      · exact List.Sublist.cons y (ih hb' hle)

/-- Helper: stability of the sort — a pair already in weakly descending
order keeps its relative order; in particular tied items stay in input
(first-occurrence) order. -/
lemma sort_desc_stable {a b : String × Nat} :
    ∀ {l}, List.Sublist [a, b] l → b.2 ≤ a.2 → List.Sublist [a, b] (sort_desc l) := by
  intro l
  induction l with
  | nil => intro h _; exact absurd h (by simp)
  | cons x xs ih =>
    intro h hle
    cases h with
    | cons _ h' => exact (ih h' hle).trans (sublist_insert_desc x (sort_desc xs))
    | cons₂ _ h' =>
      exact insert_desc_pair (mem_sort_desc.mpr (List.singleton_sublist.mp h')) hle

/-- Helper: one dict-tally step keeps key order, appending a new key at the
end. -/
lemma counter_add_keys (acc : List (String × Nat)) (k : String) :
    (counter_add acc k).map Prod.fst =
      if k ∈ acc.map Prod.fst then acc.map Prod.fst
      else acc.map Prod.fst ++ [k] := by
  induction acc with
  | nil => simp [counter_add]
  | cons hd tl ih =>
    obtain ⟨k₀, c₀⟩ := hd
    simp only [counter_add, List.map_cons]
    by_cases h : k₀ = k
    · subst h; simp
    · have hkk : ¬ k = k₀ := fun hh => h hh.symm
      simp only [if_neg h, List.map_cons, ih, List.mem_cons]
      by_cases h2 : k ∈ tl.map Prod.fst <;> simp [h2, hkk]

/-- Helper: the dict tally's keys are the labels in first-occurrence order. -/
lemma dict_counter_keys (l : List String) :
    (dict_counter l).map Prod.fst = first_occurrences l := by
  suffices h : ∀ acc : List (String × Nat), (l.foldl counter_add acc).map Prod.fst
      = l.foldl (fun acc k => if k ∈ acc then acc else acc ++ [k]) (acc.map Prod.fst) by
    simpa [dict_counter, first_occurrences] using h []
  induction l with
  | nil => intro acc; simp
  | cons a l ih =>
    intro acc
    simp only [List.foldl_cons]
    rw [ih (counter_add acc a), counter_add_keys]

/-- Helper: one dict-tally step keeps every count at least 1. -/
lemma counter_add_pos {acc : List (String × Nat)} (hacc : ∀ e ∈ acc, 1 ≤ e.2)
    (k : String) : ∀ e ∈ counter_add acc k, 1 ≤ e.2 := by
  induction acc with
  | nil =>
    intro e he
    simp only [counter_add, List.mem_singleton] at he
    simp [he]
  | cons hd tl ih =>
    intro e he
    obtain ⟨k₀, c₀⟩ := hd
    simp only [counter_add] at he
    split_ifs at he with h
    · rcases List.mem_cons.mp he with rfl | h2
      · simp
      · exact hacc e (List.mem_cons_of_mem _ h2)
    · rcases List.mem_cons.mp he with rfl | h2
      · exact hacc (k₀, c₀) (List.mem_cons_self _ _)
      · exact ih (fun e' he' => hacc e' (List.mem_cons_of_mem _ he')) e h2

/-- Helper: every count in a dict tally is at least 1. -/
lemma dict_counter_pos (l : List String) : ∀ e ∈ dict_counter l, 1 ≤ e.2 := by
  suffices h : ∀ acc : List (String × Nat), (∀ e ∈ acc, 1 ≤ e.2) →
      ∀ e ∈ l.foldl counter_add acc, 1 ≤ e.2 by
    exact h [] (by simp)
  induction l with
  | nil => intro acc hacc; simpa using hacc
  | cons a l ih =>
    intro acc hacc
    simp only [List.foldl_cons]
    exact ih _ (counter_add_pos hacc a)

/-- Pillars producing a tie among hidden relations whose first-occurrence
order (申's 七杀, 偏印, 偏财 before 卯's 劫财) differs from the declaration
order of the 10 labels. -/
def tie_pillars : Pillars :=
  ⟨(.jia, .shen), (.jia, .mao), (.jia, .mao), (.jia, .mao), .jia⟩

/-- C4 counterexample: at `tie_pillars` the hidden-relation counts are
劫财 = 3 and 七杀 = 偏印 = 偏财 = 1; declaration order would break the
three-way tie as 偏财, 七杀, 偏印 (偏财 comes before 七杀 in `all_tg`), but
the code outputs 七杀, 偏印, 偏财 — the ties keep first-occurrence order of
the triple list, not declaration order. -/
theorem c4_counterexample_tie_not_declaration_order :
    canggan_top (extract_features tie_pillars)
      = [("劫财", 3, "high"), ("七杀", 1, "low"), ("偏印", 1, "low"), ("偏财", 1, "low")]
    ∧ all_tg.indexOf "偏财" < all_tg.indexOf "七杀" := by
  decide

/-- C4 (amended): the CANGGAN-TOP5 finding is always among the rule hits;
its list has at most 5 entries (exactly min 5 (number of distinct hidden
relations)), every entry has count ≥ 1 (a count-0 entry can never appear),
entries are ordered by descending count, and the underlying sort is stable
over the tally list, whose key order is the relations' first-occurrence
order in the hidden-stem triple list — so ties are broken by first
occurrence, not by the labels' declaration order as claimed. -/
theorem c4_amended_canggan_top5 (f : Features) :
    ({ rule_id := "CANGGAN-TOP5", title := "藏干十神强度（Top5）",
       message := "none/low/high",
       evidence := .canggan_top5 (canggan_top f) } : Finding) ∈ eval_rules f
    ∧ (canggan_top f).length ≤ 5
    ∧ (canggan_top f).length = min 5 (tg_cg_counter f).length
    ∧ (∀ e ∈ canggan_top f, 1 ≤ e.2.1)
    ∧ List.Pairwise (fun a b : String × Nat × String => b.2.1 ≤ a.2.1) (canggan_top f)
    ∧ (∀ a b : String × Nat, List.Sublist [a, b] (tg_cg_counter f) → b.2 ≤ a.2 →
        List.Sublist [a, b] (sorted_items f))
    ∧ (tg_cg_counter f).map Prod.fst = first_occurrences (canggan_tg_occurrences f) := by
  refine ⟨?_, ?_, ?_, ?_, ?_, ?_, ?_⟩
  · simp [eval_rules]
  · simp [canggan_top, top_items, List.length_take]
  · simp [canggan_top, top_items, sorted_items, List.length_take, length_sort_desc]
  · intro e he
    simp only [canggan_top, List.mem_map] at he
    obtain ⟨tc, htc, rfl⟩ := he
    exact dict_counter_pos _ _ (mem_sort_desc.mp (List.take_subset _ _ htc))
  · refine List.Pairwise.map _ ?_
      (((pairwise_ge_sort_desc (tg_cg_counter f)).sublist (List.take_sublist _ _)))
    intro a b hab
    exact hab
  · intro a b hab hle
    exact sort_desc_stable hab hle
  · exact dict_counter_keys _

/-- The 10-stem alphabet as the characters the Python dicts are keyed by. -/
def GAN_ALPHABET : List Char :=
  ['甲', '乙', '丙', '丁', '戊', '己', '庚', '辛', '壬', '癸']

/-- The 12-branch alphabet as characters. -/
def ZHI_ALPHABET : List Char :=
  ['子', '丑', '寅', '卯', '辰', '巳', '午', '未', '申', '酉', '戌', '亥']

/-- Decode a stem character; `none` models the missing-key case of the
`GAN_WUXING` / `YIN_YANG` dict lookups. -/
def char_to_stem (c : Char) : Option Stem :=
  if c = '甲' then some .jia else if c = '乙' then some .yi
  else if c = '丙' then some .bing else if c = '丁' then some .ding
  else if c = '戊' then some .wu else if c = '己' then some .ji
  else if c = '庚' then some .geng else if c = '辛' then some .xin
  else if c = '壬' then some .ren else if c = '癸' then some .gui
  else none

/-- Decode a branch character; `none` models the missing-key case of the
`ZHI_CANGGAN` dict lookup. -/
def char_to_branch (c : Char) : Option Branch :=
  if c = '子' then some .zi else if c = '丑' then some .chou
  else if c = '寅' then some .yin else if c = '卯' then some .mao
  else if c = '辰' then some .chen else if c = '巳' then some .si
  else if c = '午' then some .wu else if c = '未' then some .wei
  else if c = '申' then some .shen else if c = '酉' then some .you
  else if c = '戌' then some .xu else if c = '亥' then some .hai
  else none

/-- Raw pillar input at the character level: the two characters of each
pillar code plus the day-master character, before any table lookup. -/
structure CharPillars where
  year_gz : Char × Char
  month_gz : Char × Char
  day_gz : Char × Char
  hour_gz : Char × Char
  day_master : Char
  deriving DecidableEq, Repr

/-- A `GAN_WUXING`-style dict access: a missing key raises `KeyError`. -/
def key_stem (c : Char) : Except String Stem :=
  match char_to_stem c with
  | some s => .ok s
  | none => .error ("KeyError: " ++ c.toString)

/-- A `ZHI_CANGGAN` dict access: a missing key raises `KeyError`. -/
def key_branch (c : Char) : Except String Branch :=
  match char_to_branch c with
  | some b => .ok b
  | none => .error ("KeyError: " ++ c.toString)

/-- ten_god at the boundary: its first dict access is
`GAN_WUXING[day_master]`, so an invalid day-master character raises here. -/
def ten_god_checked (dm : Char) (other : Stem) : Except String String := do
  let dmS ← key_stem dm
  pure (ten_god dmS other)

/-- Processing of one branch inside the hidden-stem loop (src/app.py lines
91-94): resolve the branch character through `ZHI_CANGGAN` and then classify
each hidden stem, which performs the `GAN_WUXING[day_master]` access. -/
def check_branch (dm : Char) (zc : Char) : Except String Branch := do
  let z ← key_branch zc
  let _ ← (ZHI_CANGGAN z).mapM (fun cg => ten_god_checked dm cg)
  pure z

/-- extract_features at the character level (src/app.py lines 82-105): each
symbol is resolved through its dict in the source's loop order — the four
visible stems first (the `wuxing_counts` tally), then each branch and the
`ten_god` calls on its hidden stems — and the first missing key aborts the
whole extraction with that `KeyError`; on success the result is exactly
`extract_features` of the decoded pillars. -/
def extract_features_checked (p : CharPillars) : Except String Features := do
  let g1 ← key_stem p.year_gz.1
  let g2 ← key_stem p.month_gz.1
  let g3 ← key_stem p.day_gz.1
  let g4 ← key_stem p.hour_gz.1
  let z1 ← check_branch p.day_master p.year_gz.2
  let z2 ← check_branch p.day_master p.month_gz.2
  let z3 ← check_branch p.day_master p.day_gz.2
  let z4 ← check_branch p.day_master p.hour_gz.2
  let dmS ← key_stem p.day_master
  pure (extract_features ⟨(g1, z1), (g2, z2), (g3, z3), (g4, z4), dmS⟩)

/-- A character-level pillar input is well formed when its stems and
branches are drawn from the two alphabets. -/
def valid_char_pillars (p : CharPillars) : Prop :=
  p.year_gz.1 ∈ GAN_ALPHABET ∧ p.month_gz.1 ∈ GAN_ALPHABET
  ∧ p.day_gz.1 ∈ GAN_ALPHABET ∧ p.hour_gz.1 ∈ GAN_ALPHABET
  ∧ p.year_gz.2 ∈ ZHI_ALPHABET ∧ p.month_gz.2 ∈ ZHI_ALPHABET
  ∧ p.day_gz.2 ∈ ZHI_ALPHABET ∧ p.hour_gz.2 ∈ ZHI_ALPHABET

instance (p : CharPillars) : Decidable (valid_char_pillars p) := by
  unfold valid_char_pillars
  infer_instance

/-- Helper: a character decodes as a stem exactly when it is in the 10-stem
alphabet. -/
lemma char_to_stem_isSome_iff (c : Char) :
    (char_to_stem c).isSome = true ↔ c ∈ GAN_ALPHABET := by
  constructor
  · intro h
    unfold char_to_stem at h
    split_ifs at h <;> subst_vars <;> first | decide | simp at h
  · intro h
    fin_cases h <;> decide

set_option maxHeartbeats 1600000 in
/-- Helper: a character decodes as a branch exactly when it is in the
12-branch alphabet. -/
lemma char_to_branch_isSome_iff (c : Char) :
    (char_to_branch c).isSome = true ↔ c ∈ ZHI_ALPHABET := by
  constructor
  · intro h
    unfold char_to_branch at h
    split_ifs at h <;> subst_vars <;> first | decide | simp at h
  · intro h
    fin_cases h <;> decide

/-- Helper: inversion of a successful `Except` bind. -/
lemma bind_ok_iff {ε α β : Type} (x : Except ε α) (g : α → Except ε β) (b : β) :
    (x >>= g) = .ok b ↔ ∃ a, x = .ok a ∧ g a = .ok b := by
  cases x <;> simp [Bind.bind, Except.bind]

/-- Helper: a successful stem lookup means the character is in the alphabet. -/
lemma key_stem_ok_mem {c : Char} {s : Stem} (h : key_stem c = .ok s) :
    c ∈ GAN_ALPHABET := by
  refine (char_to_stem_isSome_iff c).mp ?_
  unfold key_stem at h
  cases hc : char_to_stem c <;> simp [hc] at h ⊢

/-- Helper: a successful branch lookup means the character is in the alphabet. -/
lemma key_branch_ok_mem {c : Char} {b : Branch} (h : key_branch c = .ok b) :
    c ∈ ZHI_ALPHABET := by
  refine (char_to_branch_isSome_iff c).mp ?_
  unfold key_branch at h
  cases hc : char_to_branch c <;> simp [hc] at h ⊢

/-- Helper: a successful branch step means its character is in the alphabet. -/
lemma check_branch_ok_mem {dm zc : Char} {z : Branch}
    (h : check_branch dm zc = .ok z) : zc ∈ ZHI_ALPHABET := by
  simp only [check_branch, bind_ok_iff] at h
  obtain ⟨z0, hz0, -⟩ := h
  exact key_branch_ok_mem hz0

/-- Helper: if the character-level extraction succeeds, every stem and branch
character was drawn from its alphabet. -/
lemma extract_features_checked_ok_valid {p : CharPillars} {f : Features}
    (h : extract_features_checked p = .ok f) : valid_char_pillars p := by
  simp only [extract_features_checked, bind_ok_iff] at h
  obtain ⟨g1, hg1, g2, hg2, g3, hg3, g4, hg4,
    z1, hz1, z2, hz2, z3, hz3, z4, hz4, -⟩ := h
  exact ⟨key_stem_ok_mem hg1, key_stem_ok_mem hg2, key_stem_ok_mem hg3,
    key_stem_ok_mem hg4, check_branch_ok_mem hz1, check_branch_ok_mem hz2,
    check_branch_ok_mem hz3, check_branch_ok_mem hz4⟩

/-- C10: feature extraction on a pillar input containing a stem outside the
10-stem alphabet or a branch outside the 12-branch alphabet fails fast with
a KeyError-style "invalid symbol" error and never yields a feature bundle. -/
theorem c10_invalid_symbol_fails (p : CharPillars)
    (h : ¬ valid_char_pillars p) :
    ∃ msg : String, extract_features_checked p = .error msg := by
  cases he : extract_features_checked p with
  | error msg => exact ⟨msg, rfl⟩
  | ok f => exact absurd (extract_features_checked_ok_valid he) h

/-- Concrete malformed input: the year pillar's stem is the Latin letter X,
outside the 10-stem alphabet. -/
def bad_pillars : CharPillars :=
  ⟨('X', '子'), ('甲', '子'), ('甲', '子'), ('甲', '子'), '甲'⟩

/-- Witness for C10 at `bad_pillars`. -/
theorem c10_invalid_symbol_fails_witness :
    ¬ valid_char_pillars bad_pillars
    ∧ ∃ msg : String, extract_features_checked bad_pillars = .error msg :=
  ⟨by decide, c10_invalid_symbol_fails bad_pillars (by decide)⟩

end Bazi
